import Mathlib

/-!
Shallow embedding of the game-mode state machine, scheduling and settings
systems of the bevy-brick-breaker repository (src/game/mod.rs,
src/game/ball/mod.rs), together with theorems checking the specification
claims about them.

Modelling conventions:
* Bevy resources that the embedded systems read or write become fields of
  an explicit `GameState` record; each system is a function
  `GameState → GameState` (taking the per-tick `InputState` where the
  source system reads `ButtonInput`).
* `NextState<S>` is an `Option S` field: `set` overwrites it; the pending
  value is applied by `transitionPhase`, the embedding of the per-frame
  state-transition schedule (applied before the `Update` systems of the
  next tick, as in Bevy).
* Event queues are `Nat` counters (number of pending events of that type);
  an `EventReader.is_empty` test is a comparison with 0 and `clear` resets
  the counter to 0.
* `ButtonInput::get_just_pressed` iterates a hash set in an unspecified
  order; we embed the input as lists whose order stands for that iteration
  order, so `get_just_pressed().next()` is `List.head?` and
  `just_pressed k` / `pressed k` are list membership.
* Systems registered in one `add_systems` tuple without `.chain()` have no
  scheduler-guaranteed order in Bevy; the embedding runs them in their
  registration (source listing) order and records that choice here.
-/

/-- Top-level application state (`AppState` in src/main.rs; its variants
`Menu`, `InGame`, `RestartInGame` are the ones used by src/game/mod.rs and
src/menu/mod.rs). -/
inductive AppState
  | Menu
  | InGame
  | RestartInGame
deriving DecidableEq, Repr

/-- In-game mode state machine states (`InGameState` in src/game/mod.rs,
lines 41-49); `none_` embeds the source variant `None` (default). -/
inductive InGameState
  | none_
  | Preparation
  | Play
  | Pause
  | Summary
deriving DecidableEq, Repr

/-- The keyboard keys the embedded systems mention (`KeyCode`): the arrow
keys checked by `check_preparation_end_condition`, `Escape` checked by
`check_toggle_pause_condition`, the `test_settings` keys, and `Space` as a
representative unrelated key. -/
inductive KeyCode
  | ArrowLeft
  | ArrowRight
  | Escape
  | KeyQ
  | KeyE
  | Digit1
  | Digit2
  | Digit3
  | Digit4
  | Digit5
  | Space
deriving DecidableEq, Repr

/-- Mouse buttons (`MouseButton`); only emptiness of the just-pressed set
matters to the embedded systems. -/
inductive MouseButton
  | Left
  | Right
  | Middle
deriving DecidableEq, Repr

/-- One tick of input state: the just-pressed keyboard keys, the held
keyboard keys and the just-pressed mouse buttons, each as a list standing
for the iteration order of the underlying hash set. -/
structure InputState where
  justPressedKeys : List KeyCode
  pressedKeys : List KeyCode
  justPressedMouse : List MouseButton
deriving DecidableEq, Repr

/-- Embeds `ButtonInput::<KeyCode>::just_pressed`. -/
def InputState.justPressed (i : InputState) (k : KeyCode) : Bool :=
  i.justPressedKeys.contains k

/-- Embeds `ButtonInput::<KeyCode>::pressed`. -/
def InputState.pressed (i : InputState) (k : KeyCode) : Bool :=
  i.pressedKeys.contains k

/-- Pending event counts for the event types of src/game/events.rs that the
embedded systems consume. -/
structure Events where
  menuRequested : Nat
  restartRequested : Nat
  togglePauseRequested : Nat
  lastBallDestroyed : Nat
deriving DecidableEq, Repr

/-- Embeds the `Score` resource. Modelled from the spec: src/game/resources.rs is not
under src/; section 3 of the spec describes `Score` as an integer counter.
Its concrete `Default` value is not given; the embedding uses 0, and no
claim depends on the value. -/
structure Score where
  points : Int
deriving DecidableEq, Repr

def Score.default : Score := ⟨0⟩

/-- Embeds the `BrickRowSpawnCooldown` resource. Modelled from the spec:
src/game/resources.rs is not under src/; section 3 describes it as a scalar
counter driven by a fixed-interval timer. The embedding keeps the scalar;
its concrete `Default` value is not given, the embedding uses 0, and no
claim depends on the value. -/
structure BrickRowSpawnCooldown where
  remaining : Int
deriving DecidableEq, Repr

def BrickRowSpawnCooldown.default : BrickRowSpawnCooldown := ⟨0⟩

/-- Shared shape of the four steppable numeric settings resources
(`PaddleSize`, `PaddleSpeed`, `BallSize`, `BallSpeed`). Modelled from the
spec: src/game/resources.rs is not under src/; section 4.4 describes each
as an integer step value with `change_points(delta)` clamped to a fixed
inclusive range, giving 0..=10 as the example range, which the embedding
adopts. The `Default` value is not given; the embedding uses 0. -/
structure StepSetting where
  points : Int
deriving DecidableEq, Repr

def StepSetting.default : StepSetting := ⟨0⟩

/-- Modelled from the spec (section 4.4): step by `delta`, silently clamped
to the fixed inclusive range 0..=10. -/
def StepSetting.change_points (s : StepSetting) (delta : Int) : StepSetting :=
  ⟨min 10 (max 0 (s.points + delta))⟩

/-- Embeds the `BrickGhost` resource. Modelled from the spec: src/game/resources.rs is
not under src/; section 4.4 says `BrickGhost` exposes `set_enabled(bool)`
instead of `change_points`. The `Default` value is not given; the embedding
uses `false`, and no claim depends on the value. -/
structure BrickGhost where
  enabled : Bool
deriving DecidableEq, Repr

def BrickGhost.default : BrickGhost := ⟨false⟩

/-- Embeds `BrickGhost::set_enabled`. Modelled from the spec (section 4.4). -/
def BrickGhost.set_enabled (_g : BrickGhost) (b : Bool) : BrickGhost :=
  ⟨b⟩

/-- The world state the embedded systems touch: the two state machines with
their pending next states, the event queues, and the session resources
initialised by `GamePlugin::build` (src/game/mod.rs lines 53-60). -/
structure GameState where
  app : AppState
  mode : InGameState
  nextApp : Option AppState
  nextMode : Option InGameState
  events : Events
  score : Score
  cooldown : BrickRowSpawnCooldown
  ballSize : StepSetting
  ballSpeed : StepSetting
  brickGhost : BrickGhost
  paddleSize : StepSetting
  paddleSpeed : StepSetting
deriving DecidableEq, Repr

/-- Embeds `start_up` (src/game/mod.rs lines 133-135): on entering
`AppState::InGame`, request the `Preparation` mode. -/
def start_up (s : GameState) : GameState :=
  { s with nextMode := some InGameState.Preparation }

/-- Embeds `clean_up` (src/game/mod.rs lines 137-146): on exiting
`AppState::InGame`, request mode `None` and re-insert every session
resource at its `Default` value. -/
def clean_up (s : GameState) : GameState :=
  { s with
    nextMode := some InGameState.none_
    score := Score.default
    cooldown := BrickRowSpawnCooldown.default
    ballSize := StepSetting.default
    ballSpeed := StepSetting.default
    brickGhost := BrickGhost.default
    paddleSize := StepSetting.default
    paddleSpeed := StepSetting.default }

/-- Embeds `check_preparation_end_condition` (src/game/mod.rs lines 148-160):
examine the first just-pressed keyboard key, if any; when it is neither
arrow key, request `Play`; only when no keyboard key at all is just
pressed, fall through to the mouse check. -/
def check_preparation_end_condition (input : InputState) (s : GameState) :
    GameState :=
  match input.justPressedKeys.head? with
  | some key =>
      if key ≠ KeyCode.ArrowLeft ∧ key ≠ KeyCode.ArrowRight then
        { s with nextMode := some InGameState.Play }
      else
        s
  | none =>
      if input.justPressedMouse.head? ≠ none then
        { s with nextMode := some InGameState.Play }
      else
        s

/-- Embeds `check_menu_condition` (src/game/mod.rs lines 162-172): when a
`MenuRequested` event is pending, clear the queue and request
`AppState::Menu`. -/
def check_menu_condition (s : GameState) : GameState :=
  if s.events.menuRequested = 0 then
    s
  else
    { s with
      events := { s.events with menuRequested := 0 }
      nextApp := some AppState.Menu }

/-- Embeds `check_restart_condition` (src/game/mod.rs lines 174-184): when a
`RestartRequested` event is pending, clear the queue and request
`AppState::RestartInGame`. -/
def check_restart_condition (s : GameState) : GameState :=
  if s.events.restartRequested = 0 then
    s
  else
    { s with
      events := { s.events with restartRequested := 0 }
      nextApp := some AppState.RestartInGame }

/-- Embeds `continue_restart_game` (src/game/mod.rs lines 186-188): on entering
`AppState::RestartInGame`, immediately request `AppState::InGame`. -/
def continue_restart_game (s : GameState) : GameState :=
  { s with nextApp := some AppState.InGame }

/-- Embeds `check_summary_condition` (src/game/mod.rs lines 190-200): when a
`LastBallDestroyed` event is pending, clear the queue and request mode
`Summary`. -/
def check_summary_condition (s : GameState) : GameState :=
  if s.events.lastBallDestroyed = 0 then
    s
  else
    { s with
      events := { s.events with lastBallDestroyed := 0 }
      nextMode := some InGameState.Summary }

/-- Embeds `check_toggle_pause_condition` (src/game/mod.rs lines 202-227): toggle
when a `TogglePauseRequested` event is pending (clearing the queue) or
`Escape` was just pressed; a toggle from `Play` requests `Pause` and from
any other mode requests `Play`. -/
def check_toggle_pause_condition (input : InputState) (s : GameState) :
    GameState :=
  let toggle := false
  let p :=
    if s.events.togglePauseRequested ≠ 0 then
      (true, { s.events with togglePauseRequested := 0 })
    else
      (toggle, s.events)
  let toggle := if input.justPressed KeyCode.Escape then true else p.1
  if ¬toggle then
    { s with events := p.2 }
  else if s.mode = InGameState.Play then
    { s with events := p.2, nextMode := some InGameState.Pause }
  else
    { s with events := p.2, nextMode := some InGameState.Play }

/-- Embeds `test_settings` (src/game/mod.rs lines 229-264): `KeyQ` just pressed
gives step -1, otherwise `KeyE` just pressed gives step +1, otherwise no
step; with a nonzero step, each setting whose digit-select key is held is
stepped, and `Digit5` sets the brick-ghost flag to whether the step is
positive. -/
def test_settings (input : InputState) (s : GameState) : GameState :=
  let value : Int :=
    if input.justPressed KeyCode.KeyQ then -1
    else if input.justPressed KeyCode.KeyE then 1
    else 0
  if value = 0 then
    s
  else
    let s :=
      if input.pressed KeyCode.Digit1 then
        { s with paddleSize := s.paddleSize.change_points value }
      else s
    let s :=
      if input.pressed KeyCode.Digit2 then
        { s with paddleSpeed := s.paddleSpeed.change_points value }
      else s
    let s :=
      if input.pressed KeyCode.Digit3 then
        { s with ballSize := s.ballSize.change_points value }
      else s
    let s :=
      if input.pressed KeyCode.Digit4 then
        { s with ballSpeed := s.ballSpeed.change_points value }
      else s
    let s :=
      if input.pressed KeyCode.Digit5 then
        { s with brickGhost := s.brickGhost.set_enabled (value > 0) }
      else s
    s

/-- One `Update` schedule pass of the systems embedded from
`GamePlugin::build` (src/game/mod.rs lines 94-129). The whole group is
gated on `AppState::InGame`; inside it, `check_preparation_end_condition`
runs only in mode `Preparation` and `test_settings` only in mode `Play`;
the four transition checks run in every mode. Systems of the source file
that only touch entities or views (paddle, balls, bricks, sparks,
collectables, score view, pause and summary interactions) are outside the
embedded state and are omitted. Tuples without `.chain()` carry no order
guarantee in Bevy; the embedding fixes the registration (listing) order:
menu, restart, toggle-pause, summary. -/
def updateTick (input : InputState) (s : GameState) : GameState :=
  if s.app ≠ AppState.InGame then
    s
  else
    let s :=
      if s.mode = InGameState.Preparation then
        check_preparation_end_condition input s
      else s
    let s := if s.mode = InGameState.Play then test_settings input s else s
    let s := check_menu_condition s
    let s := check_restart_condition s
    let s := check_toggle_pause_condition input s
    let s := check_summary_condition s
    s

/-- Applies a pending `AppState` transition, running the
`OnExit(InGame)` handler `clean_up` and the `OnEnter` handlers
`continue_restart_game` (RestartInGame) and `start_up` (InGame) registered
in src/game/mod.rs lines 66-87. Transitions fire only when the pending
state differs from the current one. -/
def applyAppTransition (s : GameState) : GameState :=
  match s.nextApp with
  | none => s
  | some a =>
      let old := s.app
      let s := { s with nextApp := none, app := a }
      if a = old then
        s
      else
        let s :=
          if old = AppState.InGame then clean_up s else s
        let s :=
          if a = AppState.RestartInGame then continue_restart_game s else s
        let s :=
          if a = AppState.InGame then start_up s else s
        s

/-- Applies a pending `InGameState` transition; the enter and exit
handlers of the `InGameState` states only spawn or despawn views, which
are outside the embedded state. -/
def applyModeTransition (s : GameState) : GameState :=
  match s.nextMode with
  | none => s
  | some m => { s with nextMode := none, mode := m }

/-- One `StateTransition` schedule pass. Bevy fixes no order between the
two state types; the embedding applies `AppState` first, so a mode request
made by an `AppState` enter or exit handler lands in the same phase. -/
def transitionPhase (s : GameState) : GameState :=
  applyModeTransition (applyAppTransition s)

/-- One full frame: the `StateTransition` schedule, then the `Update`
schedule with the frame input. -/
def tick (input : InputState) (s : GameState) : GameState :=
  updateTick input (transitionPhase s)

/-- Labels for the three ball systems registered by `BallPlugin::build`
(src/game/ball/mod.rs lines 21-25); their bodies live in
src/game/ball/systems.rs, outside the embedded state. -/
inductive BallSystem
  | move_balls
  | bounce_ball_on_obstacles
  | bounce_ball_on_edges
deriving DecidableEq, Repr

/-- A system set registration: the systems in schedule order, whether the
set was chained, and the `InGameState` its `run_if` gate requires. -/
structure ScheduledSet where
  systems : List BallSystem
  chained : Bool
  runsIn : InGameState
deriving DecidableEq, Repr

/-- The `Update` registration of `BallPlugin::build` (src/game/ball/mod.rs
lines 21-25): `(move_balls, bounce_ball_on_obstacles,
bounce_ball_on_edges).chain().run_if(in_state(InGameState::Play))`. -/
def ballPlugin_update_set : ScheduledSet :=
  { systems :=
      [BallSystem.move_balls, BallSystem.bounce_ball_on_obstacles,
        BallSystem.bounce_ball_on_edges]
    chained := true
    runsIn := InGameState.Play }

/-- The ball systems that run, in order, during one `Update` pass while the
mode is `m`: the chained list when the `run_if` gate passes, nothing
otherwise. -/
def ballSystemsRun (m : InGameState) : List BallSystem :=
  if m = ballPlugin_update_set.runsIn then ballPlugin_update_set.systems
  else []

/-- A tick with no input at all, used to build concrete scenarios. -/
def baseInput : InputState :=
  { justPressedKeys := [], pressedKeys := [], justPressedMouse := [] }

/-- Empty event queues, used to build concrete scenarios. -/
def baseEvents : Events :=
  { menuRequested := 0, restartRequested := 0, togglePauseRequested := 0,
    lastBallDestroyed := 0 }

/-- A concrete in-game world in mode `Play` with nothing pending, used to
build concrete scenarios. -/
def baseState : GameState :=
  { app := AppState.InGame
    mode := InGameState.Play
    nextApp := none
    nextMode := none
    events := baseEvents
    score := Score.default
    cooldown := BrickRowSpawnCooldown.default
    ballSize := StepSetting.default
    ballSpeed := StepSetting.default
    brickGhost := BrickGhost.default
    paddleSize := StepSetting.default
    paddleSpeed := StepSetting.default }


/-! Frame lemmas: which fields each embedded system leaves unchanged. -/

@[simp]
theorem check_preparation_end_condition_app (input : InputState)
    (s : GameState) :
    (check_preparation_end_condition input s).app = s.app := by
  unfold check_preparation_end_condition
  repeat' split
  all_goals rfl

@[simp]
theorem check_preparation_end_condition_mode (input : InputState)
    (s : GameState) :
    (check_preparation_end_condition input s).mode = s.mode := by
  unfold check_preparation_end_condition
  repeat' split
  all_goals rfl

@[simp]
theorem check_preparation_end_condition_nextApp (input : InputState)
    (s : GameState) :
    (check_preparation_end_condition input s).nextApp = s.nextApp := by
  unfold check_preparation_end_condition
  repeat' split
  all_goals rfl

@[simp]
theorem check_preparation_end_condition_events (input : InputState)
    (s : GameState) :
    (check_preparation_end_condition input s).events = s.events := by
  unfold check_preparation_end_condition
  repeat' split
  all_goals rfl

@[simp]
theorem test_settings_app (input : InputState) (s : GameState) :
    (test_settings input s).app = s.app := by
  unfold test_settings
  repeat' split
  all_goals rfl

@[simp]
theorem test_settings_mode (input : InputState) (s : GameState) :
    (test_settings input s).mode = s.mode := by
  unfold test_settings
  repeat' split
  all_goals rfl

@[simp]
theorem test_settings_nextApp (input : InputState) (s : GameState) :
    (test_settings input s).nextApp = s.nextApp := by
  unfold test_settings
  repeat' split
  all_goals rfl

@[simp]
theorem test_settings_nextMode (input : InputState) (s : GameState) :
    (test_settings input s).nextMode = s.nextMode := by
  unfold test_settings
  repeat' split
  all_goals rfl

@[simp]
theorem test_settings_events (input : InputState) (s : GameState) :
    (test_settings input s).events = s.events := by
  unfold test_settings
  repeat' split
  all_goals rfl

@[simp]
theorem check_menu_condition_app (s : GameState) :
    (check_menu_condition s).app = s.app := by
  unfold check_menu_condition
  split
  all_goals rfl

@[simp]
theorem check_menu_condition_mode (s : GameState) :
    (check_menu_condition s).mode = s.mode := by
  unfold check_menu_condition
  split
  all_goals rfl

@[simp]
theorem check_menu_condition_nextMode (s : GameState) :
    (check_menu_condition s).nextMode = s.nextMode := by
  unfold check_menu_condition
  split
  all_goals rfl

@[simp]
theorem check_menu_condition_restart (s : GameState) :
    (check_menu_condition s).events.restartRequested =
      s.events.restartRequested := by
  unfold check_menu_condition
  split
  all_goals rfl

@[simp]
theorem check_menu_condition_toggle (s : GameState) :
    (check_menu_condition s).events.togglePauseRequested =
      s.events.togglePauseRequested := by
  unfold check_menu_condition
  split
  all_goals rfl

@[simp]
theorem check_menu_condition_lastBall (s : GameState) :
    (check_menu_condition s).events.lastBallDestroyed =
      s.events.lastBallDestroyed := by
  unfold check_menu_condition
  split
  all_goals rfl

@[simp]
theorem check_restart_condition_app (s : GameState) :
    (check_restart_condition s).app = s.app := by
  unfold check_restart_condition
  split
  all_goals rfl

@[simp]
theorem check_restart_condition_mode (s : GameState) :
    (check_restart_condition s).mode = s.mode := by
  unfold check_restart_condition
  split
  all_goals rfl

@[simp]
theorem check_restart_condition_nextMode (s : GameState) :
    (check_restart_condition s).nextMode = s.nextMode := by
  unfold check_restart_condition
  split
  all_goals rfl

@[simp]
theorem check_restart_condition_toggle (s : GameState) :
    (check_restart_condition s).events.togglePauseRequested =
      s.events.togglePauseRequested := by
  unfold check_restart_condition
  split
  all_goals rfl

@[simp]
theorem check_restart_condition_lastBall (s : GameState) :
    (check_restart_condition s).events.lastBallDestroyed =
      s.events.lastBallDestroyed := by
  unfold check_restart_condition
  split
  all_goals rfl

@[simp]
theorem check_toggle_pause_condition_app (input : InputState)
    (s : GameState) :
    (check_toggle_pause_condition input s).app = s.app := by
  unfold check_toggle_pause_condition
  repeat' split
  all_goals rfl

@[simp]
theorem check_toggle_pause_condition_mode (input : InputState)
    (s : GameState) :
    (check_toggle_pause_condition input s).mode = s.mode := by
  unfold check_toggle_pause_condition
  repeat' split
  all_goals rfl

@[simp]
theorem check_toggle_pause_condition_nextApp (input : InputState)
    (s : GameState) :
    (check_toggle_pause_condition input s).nextApp = s.nextApp := by
  unfold check_toggle_pause_condition
  repeat' split
  all_goals rfl

@[simp]
theorem check_toggle_pause_condition_lastBall (input : InputState)
    (s : GameState) :
    (check_toggle_pause_condition input s).events.lastBallDestroyed =
      s.events.lastBallDestroyed := by
  unfold check_toggle_pause_condition
  repeat' split
  all_goals rfl

@[simp]
theorem check_summary_condition_app (s : GameState) :
    (check_summary_condition s).app = s.app := by
  unfold check_summary_condition
  split
  all_goals rfl

@[simp]
theorem check_summary_condition_mode (s : GameState) :
    (check_summary_condition s).mode = s.mode := by
  unfold check_summary_condition
  split
  all_goals rfl

@[simp]
theorem check_summary_condition_nextApp (s : GameState) :
    (check_summary_condition s).nextApp = s.nextApp := by
  unfold check_summary_condition
  split
  all_goals rfl

/-! Behaviour lemmas for the individual systems. -/

theorem check_menu_condition_of_zero (s : GameState)
    (h : s.events.menuRequested = 0) :
    check_menu_condition s = s := by
  unfold check_menu_condition
  rw [if_pos h]

theorem check_restart_condition_of_zero (s : GameState)
    (h : s.events.restartRequested = 0) :
    check_restart_condition s = s := by
  unfold check_restart_condition
  rw [if_pos h]

theorem check_restart_condition_of_pos (s : GameState)
    (h : s.events.restartRequested ≠ 0) :
    (check_restart_condition s).nextApp = some AppState.RestartInGame := by
  unfold check_restart_condition
  rw [if_neg h]

theorem check_summary_condition_of_zero (s : GameState)
    (h : s.events.lastBallDestroyed = 0) :
    check_summary_condition s = s := by
  unfold check_summary_condition
  rw [if_pos h]

theorem check_summary_condition_of_pos (s : GameState)
    (h : s.events.lastBallDestroyed ≠ 0) :
    (check_summary_condition s).nextMode = some InGameState.Summary ∧
      (check_summary_condition s).events.lastBallDestroyed = 0 := by
  unfold check_summary_condition
  rw [if_neg h]
  exact ⟨rfl, rfl⟩

/-- Behaviour of the pause-toggle system when a pause input is present:
the toggle queue ends empty and the requested next mode is `Pause` from
`Play` and `Play` from everything else. -/
theorem check_toggle_pause_condition_of_input (input : InputState)
    (s : GameState)
    (h : input.justPressed KeyCode.Escape = true ∨
      s.events.togglePauseRequested ≠ 0) :
    (check_toggle_pause_condition input s).events.togglePauseRequested = 0 ∧
      (check_toggle_pause_condition input s).nextMode =
        some (if s.mode = InGameState.Play then InGameState.Pause
          else InGameState.Play) := by
  unfold check_toggle_pause_condition
  by_cases hm : s.mode = InGameState.Play <;>
    by_cases ht : s.events.togglePauseRequested = 0 <;>
    by_cases he : input.justPressed KeyCode.Escape = true <;>
    simp_all
/-- Behaviour of the pause-toggle system when no pause input is present:
it changes nothing. -/
theorem check_toggle_pause_condition_of_no_input (input : InputState)
    (s : GameState)
    (h1 : input.justPressed KeyCode.Escape = false)
    (h2 : s.events.togglePauseRequested = 0) :
    check_toggle_pause_condition input s = s := by
  unfold check_toggle_pause_condition
  simp [h1, h2]

/-! Lemmas about a whole `Update` pass and a whole transition phase. -/

theorem updateTick_app (input : InputState) (s : GameState) :
    (updateTick input s).app = s.app := by
  unfold updateTick
  split
  · rfl
  · split <;> simp <;> (try (split <;> simp))

theorem updateTick_mode (input : InputState) (s : GameState) :
    (updateTick input s).mode = s.mode := by
  unfold updateTick
  split
  · rfl
  · split <;> simp <;> (try (split <;> simp))

theorem updateTick_of_not_inGame (input : InputState) (s : GameState)
    (h : s.app ≠ AppState.InGame) :
    updateTick input s = s := by
  unfold updateTick
  rw [if_pos h]

/-- A pending `RestartRequested` event during an in-game `Update` pass
leaves `RestartInGame` as the requested next `AppState`, whatever else is
pending: the restart check runs after the menu check and the two later
checks do not write the `AppState` queue. -/
theorem updateTick_restart_nextApp (input : InputState) (s : GameState)
    (h1 : s.app = AppState.InGame)
    (h2 : s.events.restartRequested ≠ 0) :
    (updateTick input s).nextApp = some AppState.RestartInGame := by
  unfold updateTick
  rw [if_neg (by simp [h1])]
  simp only [check_toggle_pause_condition_nextApp, check_summary_condition_nextApp]
  rw [check_restart_condition_of_pos]
  repeat' split
  all_goals simp [h2]

theorem applyAppTransition_of_none (s : GameState)
    (h : s.nextApp = none) :
    applyAppTransition s = s := by
  unfold applyAppTransition
  rw [h]

@[simp]
theorem applyModeTransition_app (s : GameState) :
    (applyModeTransition s).app = s.app := by
  unfold applyModeTransition
  split
  all_goals rfl

@[simp]
theorem applyModeTransition_events (s : GameState) :
    (applyModeTransition s).events = s.events := by
  unfold applyModeTransition
  split
  all_goals rfl

@[simp]
theorem applyModeTransition_nextApp (s : GameState) :
    (applyModeTransition s).nextApp = s.nextApp := by
  unfold applyModeTransition
  split
  all_goals rfl

theorem transitionPhase_app_of_none (s : GameState)
    (h : s.nextApp = none) :
    (transitionPhase s).app = s.app := by
  unfold transitionPhase
  rw [applyAppTransition_of_none s h]
  simp

theorem transitionPhase_events_of_none (s : GameState)
    (h : s.nextApp = none) :
    (transitionPhase s).events = s.events := by
  unfold transitionPhase
  rw [applyAppTransition_of_none s h]
  simp

theorem transitionPhase_nextApp_of_none (s : GameState)
    (h : s.nextApp = none) :
    (transitionPhase s).nextApp = none := by
  unfold transitionPhase
  rw [applyAppTransition_of_none s h]
  simp [h]

/-- Applying a pending `InGame` to `RestartInGame` transition: the exit
handler `clean_up` resets the session resources and requests mode `None`
(applied in the same phase), the enter handler `continue_restart_game`
requests `InGame`; events survive. -/
theorem transitionPhase_exit_restart (s : GameState)
    (h1 : s.app = AppState.InGame)
    (h2 : s.nextApp = some AppState.RestartInGame) :
    transitionPhase s =
      { app := AppState.RestartInGame
        mode := InGameState.none_
        nextApp := some AppState.InGame
        nextMode := none
        events := s.events
        score := Score.default
        cooldown := BrickRowSpawnCooldown.default
        ballSize := StepSetting.default
        ballSpeed := StepSetting.default
        brickGhost := BrickGhost.default
        paddleSize := StepSetting.default
        paddleSpeed := StepSetting.default } := by
  unfold transitionPhase applyAppTransition applyModeTransition
  unfold clean_up continue_restart_game start_up
  rw [h2]
  simp [h1]

/-- Applying a pending `RestartInGame` to `InGame` transition: the enter
handler `start_up` requests mode `Preparation` (applied in the same
phase); everything else survives. -/
theorem transitionPhase_enter_inGame (s : GameState)
    (h1 : s.app = AppState.RestartInGame)
    (h2 : s.nextApp = some AppState.InGame) :
    transitionPhase s =
      { s with app := AppState.InGame
               mode := InGameState.Preparation
               nextApp := none
               nextMode := none } := by
  unfold transitionPhase applyAppTransition applyModeTransition
  unfold clean_up continue_restart_game start_up
  rw [h2]
  simp [h1]

/-! Claim theorems. -/

/-- C2: within one tick while the mode is Play, the ball pipeline applies
motion integration, then obstacle bounce, then edge bounce, in exactly
that fixed sequence (the registration is chained), and none of the three
systems runs when the mode is not Play. -/
theorem c2_ball_pipeline_order :
    ballSystemsRun InGameState.Play =
      [BallSystem.move_balls, BallSystem.bounce_ball_on_obstacles,
        BallSystem.bounce_ball_on_edges] ∧
      ballPlugin_update_set.chained = true ∧
      ∀ m : InGameState, m ≠ InGameState.Play → ballSystemsRun m = [] := by
  refine ⟨rfl, rfl, ?_⟩
  intro m hm
  simp [ballSystemsRun, ballPlugin_update_set, hm]

theorem c2_ball_pipeline_order_witness :
    ballSystemsRun InGameState.Pause = [] :=
  c2_ball_pipeline_order.2.2 InGameState.Pause (by decide)

/-- C10: when a keyboard key is just pressed and the examined (first) key
is ArrowLeft, the preparation-end check changes nothing at all — in
particular the mouse is never examined and the mode is not sent to Play,
whatever mouse buttons are just pressed. -/
theorem c10_arrow_first_skips_mouse (input : InputState) (s : GameState)
    (h : input.justPressedKeys.head? = some KeyCode.ArrowLeft) :
    check_preparation_end_condition input s = s := by
  unfold check_preparation_end_condition
  rw [h]
  simp

theorem c10_arrow_first_skips_mouse_witness :
    check_preparation_end_condition
      { justPressedKeys := [KeyCode.ArrowLeft]
        pressedKeys := [KeyCode.ArrowLeft]
        justPressedMouse := [MouseButton.Left] }
      { baseState with mode := InGameState.Preparation } =
      { baseState with mode := InGameState.Preparation } :=
  c10_arrow_first_skips_mouse _ _ rfl

/-- C5 counterexample: in Preparation with ArrowLeft examined first, a
just-pressed non-move key (Space) does not send the mode to Play in that
tick, contradicting the claim that any combination containing a non-move
press transitions to Play. -/
theorem c5_counterexample :
    ({ justPressedKeys := [KeyCode.ArrowLeft, KeyCode.Space]
       pressedKeys := [KeyCode.ArrowLeft, KeyCode.Space]
       justPressedMouse := [] } : InputState).justPressed KeyCode.Space
        = true ∧
      ({ baseState with mode := InGameState.Preparation } : GameState).mode
        = InGameState.Preparation ∧
      (updateTick
          { justPressedKeys := [KeyCode.ArrowLeft, KeyCode.Space]
            pressedKeys := [KeyCode.ArrowLeft, KeyCode.Space]
            justPressedMouse := [] }
          { baseState with mode := InGameState.Preparation }).nextMode ≠
        some InGameState.Play := by
  decide

/-- C5 (amended): in Preparation, the check sends the mode to Play exactly
when the first examined just-pressed keyboard key is neither ArrowLeft nor
ArrowRight, or no keyboard key is just pressed and some mouse button is
just pressed; other just-pressed keys beyond the first are never
examined. -/
theorem c5_preparation_end_characterization (input : InputState)
    (s : GameState) (h : s.nextMode = none) :
    (check_preparation_end_condition input s).nextMode =
        some InGameState.Play ↔
      (∃ k, input.justPressedKeys.head? = some k ∧
          k ≠ KeyCode.ArrowLeft ∧ k ≠ KeyCode.ArrowRight) ∨
        (input.justPressedKeys.head? = none ∧
          input.justPressedMouse.head? ≠ none) := by
  cases hk : input.justPressedKeys.head? with
  | none =>
      by_cases hm : input.justPressedMouse.head? = none <;>
        simp [check_preparation_end_condition, hk, hm, h]
  | some k =>
      by_cases hAL : k = KeyCode.ArrowLeft
      · subst hAL
        simp [check_preparation_end_condition, hk, h]
      · by_cases hAR : k = KeyCode.ArrowRight
        · subst hAR
          simp [check_preparation_end_condition, hk, h]
        · simp [check_preparation_end_condition, hk, h, hAL, hAR]

theorem c5_preparation_end_characterization_witness :
    (check_preparation_end_condition
        { justPressedKeys := [KeyCode.Space]
          pressedKeys := [KeyCode.Space]
          justPressedMouse := [] }
        { baseState with mode := InGameState.Preparation }).nextMode =
      some InGameState.Play :=
  (c5_preparation_end_characterization _ _ rfl).mpr
    (Or.inl ⟨KeyCode.Space, rfl, by decide, by decide⟩)

/-- C1 counterexample: with both a MenuRequested and a RestartRequested
event pending in one in-game tick, the transition checks leave
RestartInGame, not Menu, as the requested next AppState: the restart
check runs after the menu check, and its write to the shared next-state
slot overwrites the menu one. -/
theorem c1_counterexample :
    ({ baseState with
        events := { baseEvents with
          menuRequested := 1, restartRequested := 1 } } : GameState).app =
        AppState.InGame ∧
      1 ≤ ({ baseState with
        events := { baseEvents with
          menuRequested := 1,
          restartRequested := 1 } } : GameState).events.menuRequested ∧
      1 ≤ ({ baseState with
        events := { baseEvents with
          menuRequested := 1,
          restartRequested := 1 } } : GameState).events.restartRequested ∧
      (updateTick baseInput
          { baseState with
            events := { baseEvents with
              menuRequested := 1, restartRequested := 1 } }).nextApp ≠
        some AppState.Menu := by
  decide

/-- C1 (amended): if a MenuRequested event and a RestartRequested event
are both pending in the same in-game tick, the transition checks resolve
to the RestartInGame outcome, whatever other events or input are pending:
under the registration order the restart check runs after the menu check
and both write the same pending-AppState slot, so the restart write
wins. -/
theorem c1_menu_restart_same_tick (input : InputState) (s : GameState)
    (h1 : s.app = AppState.InGame)
    (_h2 : 1 ≤ s.events.menuRequested)
    (h3 : 1 ≤ s.events.restartRequested) :
    (updateTick input s).nextApp = some AppState.RestartInGame ∧
      (updateTick input s).nextApp ≠ some AppState.Menu := by
  have h := updateTick_restart_nextApp input s h1 (by omega)
  rw [h]
  exact ⟨rfl, by simp⟩

theorem c1_menu_restart_same_tick_witness :
    (updateTick baseInput
        { baseState with
          events := { baseEvents with
            menuRequested := 1, restartRequested := 1 } }).nextApp =
        some AppState.RestartInGame ∧
      (updateTick baseInput
          { baseState with
            events := { baseEvents with
              menuRequested := 1, restartRequested := 1 } }).nextApp ≠
        some AppState.Menu :=
  c1_menu_restart_same_tick baseInput _ rfl (by decide) (by decide)

/-- C4: while the mode is Play, an in-game tick with at least one pending
LastBallDestroyed event leaves Summary as the requested next mode and
clears the LastBallDestroyed queue, so the transition fires at most once
per tick. -/
theorem c4_last_ball_summary (input : InputState) (s : GameState)
    (h1 : s.app = AppState.InGame) (h2 : s.mode = InGameState.Play)
    (h3 : 1 ≤ s.events.lastBallDestroyed) :
    (updateTick input s).nextMode = some InGameState.Summary ∧
      (updateTick input s).events.lastBallDestroyed = 0 := by
  unfold updateTick
  rw [if_neg (by simp [h1]), if_neg (by simp [h2])]
  dsimp only
  rw [if_pos h2]
  exact check_summary_condition_of_pos _ (by simp; omega)

theorem c4_last_ball_summary_witness :
    (updateTick baseInput
        { baseState with
          events := { baseEvents with lastBallDestroyed := 2 } }).nextMode =
        some InGameState.Summary ∧
      (updateTick baseInput
          { baseState with
            events := { baseEvents with
              lastBallDestroyed := 2 } }).events.lastBallDestroyed = 0 :=
  c4_last_ball_summary baseInput _ rfl rfl (by decide)

/-- C3: a pause input (Escape just pressed, or at least one pending
TogglePauseRequested event) requests Pause when the mode is Play and Play
when the mode is Pause, and the TogglePauseRequested queue is cleared on
consumption, so any number of pending toggle events in one tick acts
exactly like one. -/
theorem c3_toggle_pause :
    (∀ (input : InputState) (s : GameState),
        (input.justPressed KeyCode.Escape = true ∨
            1 ≤ s.events.togglePauseRequested) →
          (s.mode = InGameState.Play →
              (check_toggle_pause_condition input s).nextMode =
                some InGameState.Pause) ∧
            (s.mode = InGameState.Pause →
              (check_toggle_pause_condition input s).nextMode =
                some InGameState.Play) ∧
            (check_toggle_pause_condition input
                s).events.togglePauseRequested = 0) ∧
      ∀ (input : InputState) (s : GameState) (n m : ℕ),
        1 ≤ n → 1 ≤ m →
        check_toggle_pause_condition input
            { s with events :=
                { s.events with togglePauseRequested := n } } =
          check_toggle_pause_condition input
            { s with events :=
                { s.events with togglePauseRequested := m } } := by
  constructor
  · intro input s h
    have h' : input.justPressed KeyCode.Escape = true ∨
        s.events.togglePauseRequested ≠ 0 := by
      rcases h with h | h
      · exact Or.inl h
      · exact Or.inr (by omega)
    have hh := check_toggle_pause_condition_of_input input s h'
    refine ⟨?_, ?_, hh.1⟩
    · intro hm
      rw [hh.2, hm]
      simp
    · intro hm
      rw [hh.2, hm]
      simp
  · intro input s n m hn hm
    have hn' : n ≠ 0 := by omega
    have hm' : m ≠ 0 := by omega
    unfold check_toggle_pause_condition
    simp [hn', hm']

theorem c3_toggle_pause_witness :
    (check_toggle_pause_condition baseInput
          { baseState with events :=
              { baseEvents with togglePauseRequested := 3 } }).nextMode =
        some InGameState.Pause ∧
      (check_toggle_pause_condition baseInput
          { baseState with events :=
              { baseEvents with
                togglePauseRequested := 3 } }).events.togglePauseRequested
        = 0 ∧
      check_toggle_pause_condition baseInput
          { baseState with events :=
              { baseEvents with togglePauseRequested := 3 } } =
        check_toggle_pause_condition baseInput
          { baseState with events :=
              { baseEvents with togglePauseRequested := 1 } } := by
  have h := c3_toggle_pause.1 baseInput
    { baseState with events :=
        { baseEvents with togglePauseRequested := 3 } }
    (Or.inr (by decide))
  refine ⟨h.1 rfl, h.2.2, ?_⟩
  have h2 := c3_toggle_pause.2 baseInput baseState 3 1 (by decide) (by decide)
  exact h2

/-- C9: the pause-toggle check is gated only on the app being in-game, not
on the mode: a pause input in a tick whose mode is Preparation, Summary or
None (with no pending LastBallDestroyed event) leaves Play as the
requested next mode, since every mode other than Play toggles to Play. -/
theorem c9_toggle_any_mode (input : InputState) (s : GameState)
    (h1 : s.app = AppState.InGame)
    (h2 : s.mode = InGameState.Preparation ∨
      s.mode = InGameState.Summary ∨ s.mode = InGameState.none_)
    (h3 : input.justPressed KeyCode.Escape = true ∨
      1 ≤ s.events.togglePauseRequested)
    (h4 : s.events.lastBallDestroyed = 0) :
    (updateTick input s).nextMode = some InGameState.Play := by
  have hmode : s.mode ≠ InGameState.Play := by
    rcases h2 with h | h | h <;> simp [h]
  unfold updateTick
  rw [if_neg (by simp [h1])]
  rcases h2 with hP | hO | hO
  · rw [if_pos hP]
    dsimp only
    rw [if_neg (by simp [hP])]
    rw [check_summary_condition_of_zero _ (by simp [h4])]
    have hc : input.justPressed KeyCode.Escape = true ∨
        (check_restart_condition (check_menu_condition
            (check_preparation_end_condition input
              s))).events.togglePauseRequested ≠ 0 := by
      rcases h3 with h | h
      · exact Or.inl h
      · exact Or.inr (by simp; omega)
    rw [(check_toggle_pause_condition_of_input input _ hc).2]
    simp [hmode]
  all_goals
    rw [if_neg (by simp [hO])]
    dsimp only
    rw [if_neg (by simp [hO])]
    rw [check_summary_condition_of_zero _ (by simp [h4])]
    have hc : input.justPressed KeyCode.Escape = true ∨
        (check_restart_condition
            (check_menu_condition s)).events.togglePauseRequested ≠ 0 := by
      rcases h3 with h | h
      · exact Or.inl h
      · exact Or.inr (by simp; omega)
    rw [(check_toggle_pause_condition_of_input input _ hc).2]
    simp [hmode]

theorem c9_toggle_any_mode_witness :
    (updateTick baseInput
        { baseState with
          mode := InGameState.Summary
          events :=
            { baseEvents with togglePauseRequested := 1 } }).nextMode =
      some InGameState.Play :=
  c9_toggle_any_mode baseInput _ rfl (Or.inr (Or.inl rfl))
    (Or.inr (by decide)) rfl

/-- C7: applying a session teardown (a pending transition out of InGame,
to Menu or to RestartInGame) runs the cleanup step: the mode goes to None
and every session resource — Score, BrickRowSpawnCooldown, BallSize,
BallSpeed, BrickGhost, PaddleSize, PaddleSpeed — is reset to its default
value, whatever state the session was in. -/
theorem c7_cleanup_resets (s : GameState) (a : AppState)
    (h1 : s.app = AppState.InGame)
    (h2 : s.nextApp = some a)
    (h3 : a ≠ AppState.InGame) :
    (transitionPhase s).mode = InGameState.none_ ∧
      (transitionPhase s).score = Score.default ∧
      (transitionPhase s).cooldown = BrickRowSpawnCooldown.default ∧
      (transitionPhase s).ballSize = StepSetting.default ∧
      (transitionPhase s).ballSpeed = StepSetting.default ∧
      (transitionPhase s).brickGhost = BrickGhost.default ∧
      (transitionPhase s).paddleSize = StepSetting.default ∧
      (transitionPhase s).paddleSpeed = StepSetting.default := by
  unfold transitionPhase applyAppTransition applyModeTransition
  unfold clean_up continue_restart_game start_up
  rw [h2]
  cases a with
  | Menu => simp [h1]
  | InGame => exact absurd rfl h3
  | RestartInGame => simp [h1]

theorem c7_cleanup_resets_witness :
    (transitionPhase
          { baseState with
            mode := InGameState.Summary
            nextApp := some AppState.Menu
            score := { points := 7 }
            paddleSize := { points := 4 } }).mode = InGameState.none_ ∧
      (transitionPhase
          { baseState with
            mode := InGameState.Summary
            nextApp := some AppState.Menu
            score := { points := 7 }
            paddleSize := { points := 4 } }).score = Score.default ∧
      (transitionPhase
          { baseState with
            mode := InGameState.Summary
            nextApp := some AppState.Menu
            score := { points := 7 }
            paddleSize := { points := 4 } }).cooldown =
        BrickRowSpawnCooldown.default ∧
      (transitionPhase
          { baseState with
            mode := InGameState.Summary
            nextApp := some AppState.Menu
            score := { points := 7 }
            paddleSize := { points := 4 } }).ballSize =
        StepSetting.default ∧
      (transitionPhase
          { baseState with
            mode := InGameState.Summary
            nextApp := some AppState.Menu
            score := { points := 7 }
            paddleSize := { points := 4 } }).ballSpeed =
        StepSetting.default ∧
      (transitionPhase
          { baseState with
            mode := InGameState.Summary
            nextApp := some AppState.Menu
            score := { points := 7 }
            paddleSize := { points := 4 } }).brickGhost =
        BrickGhost.default ∧
      (transitionPhase
          { baseState with
            mode := InGameState.Summary
            nextApp := some AppState.Menu
            score := { points := 7 }
            paddleSize := { points := 4 } }).paddleSize =
        StepSetting.default ∧
      (transitionPhase
          { baseState with
            mode := InGameState.Summary
            nextApp := some AppState.Menu
            score := { points := 7 }
            paddleSize := { points := 4 } }).paddleSpeed =
        StepSetting.default :=
  c7_cleanup_resets _ AppState.Menu rfl rfl (by decide)

/-- C6: from any in-game mode, a tick with a pending RestartRequested
event (and no MenuRequested event) leaves RestartInGame as the requested
next AppState; the following frame enters RestartInGame, whose enter
handler immediately requests InGame; the frame after that re-enters
InGame, whose enter handler sets the mode to Preparation — so a restart
request is back in Preparation three ticks later. -/
theorem c6_restart_reaches_preparation (i1 i2 i3 : InputState)
    (s : GameState)
    (h1 : s.app = AppState.InGame)
    (h2 : s.nextApp = none)
    (h3 : 1 ≤ s.events.restartRequested)
    (_h4 : s.events.menuRequested = 0) :
    (tick i1 s).nextApp = some AppState.RestartInGame ∧
      (tick i2 (tick i1 s)).app = AppState.RestartInGame ∧
      (tick i3 (tick i2 (tick i1 s))).app = AppState.InGame ∧
      (tick i3 (tick i2 (tick i1 s))).mode = InGameState.Preparation := by
  have e1 : (tick i1 s).nextApp = some AppState.RestartInGame := by
    unfold tick
    exact updateTick_restart_nextApp i1 _
      (by rw [transitionPhase_app_of_none s h2]; exact h1)
      (by rw [transitionPhase_events_of_none s h2]; omega)
  have a1 : (tick i1 s).app = AppState.InGame := by
    unfold tick
    rw [updateTick_app, transitionPhase_app_of_none s h2, h1]
  have ht2 := transitionPhase_exit_restart _ a1 e1
  have step2 : tick i2 (tick i1 s) =
      { app := AppState.RestartInGame
        mode := InGameState.none_
        nextApp := some AppState.InGame
        nextMode := none
        events := (tick i1 s).events
        score := Score.default
        cooldown := BrickRowSpawnCooldown.default
        ballSize := StepSetting.default
        ballSpeed := StepSetting.default
        brickGhost := BrickGhost.default
        paddleSize := StepSetting.default
        paddleSpeed := StepSetting.default } := by
    show updateTick i2 (transitionPhase (tick i1 s)) = _
    rw [ht2]
    exact updateTick_of_not_inGame i2 _ (by simp)
  have ht3 := transitionPhase_enter_inGame (tick i2 (tick i1 s))
    (by rw [step2]) (by rw [step2])
  refine ⟨e1, by rw [step2], ?_, ?_⟩
  · show (updateTick i3 (transitionPhase (tick i2 (tick i1 s)))).app =
      AppState.InGame
    rw [updateTick_app, ht3]
  · show (updateTick i3 (transitionPhase (tick i2 (tick i1 s)))).mode =
      InGameState.Preparation
    rw [updateTick_mode, ht3]

theorem c6_restart_reaches_preparation_witness :
    (tick baseInput
          { baseState with events :=
              { baseEvents with restartRequested := 1 } }).nextApp =
        some AppState.RestartInGame ∧
      (tick baseInput (tick baseInput
          { baseState with events :=
              { baseEvents with restartRequested := 1 } })).app =
        AppState.RestartInGame ∧
      (tick baseInput (tick baseInput (tick baseInput
          { baseState with events :=
              { baseEvents with restartRequested := 1 } }))).app =
        AppState.InGame ∧
      (tick baseInput (tick baseInput (tick baseInput
          { baseState with events :=
              { baseEvents with restartRequested := 1 } }))).mode =
        InGameState.Preparation :=
  c6_restart_reaches_preparation baseInput baseInput baseInput _
    rfl rfl (by decide) rfl

/-- Evaluation of `test_settings` under a raise edge: E just pressed and
Q not. -/
theorem test_settings_raise (input : InputState) (s : GameState)
    (hq : input.justPressed KeyCode.KeyQ = false)
    (he : input.justPressed KeyCode.KeyE = true) :
    test_settings input s =
      { s with
        paddleSize :=
          if input.pressed KeyCode.Digit1 then
            s.paddleSize.change_points 1
          else s.paddleSize
        paddleSpeed :=
          if input.pressed KeyCode.Digit2 then
            s.paddleSpeed.change_points 1
          else s.paddleSpeed
        ballSize :=
          if input.pressed KeyCode.Digit3 then
            s.ballSize.change_points 1
          else s.ballSize
        ballSpeed :=
          if input.pressed KeyCode.Digit4 then
            s.ballSpeed.change_points 1
          else s.ballSpeed
        brickGhost :=
          if input.pressed KeyCode.Digit5 then
            s.brickGhost.set_enabled true
          else s.brickGhost } := by
  unfold test_settings
  simp only [hq, he, Bool.false_eq_true, if_false, if_true]
  repeat' split
  all_goals first | rfl | simp_all

/-- Evaluation of `test_settings` under a lower edge: Q just pressed
(which wins over E). -/
theorem test_settings_lower (input : InputState) (s : GameState)
    (hq : input.justPressed KeyCode.KeyQ = true) :
    test_settings input s =
      { s with
        paddleSize :=
          if input.pressed KeyCode.Digit1 then
            s.paddleSize.change_points (-1)
          else s.paddleSize
        paddleSpeed :=
          if input.pressed KeyCode.Digit2 then
            s.paddleSpeed.change_points (-1)
          else s.paddleSpeed
        ballSize :=
          if input.pressed KeyCode.Digit3 then
            s.ballSize.change_points (-1)
          else s.ballSize
        ballSpeed :=
          if input.pressed KeyCode.Digit4 then
            s.ballSpeed.change_points (-1)
          else s.ballSpeed
        brickGhost :=
          if input.pressed KeyCode.Digit5 then
            s.brickGhost.set_enabled false
          else s.brickGhost } := by
  unfold test_settings
  simp only [hq, if_true]
  repeat' split
  all_goals first | rfl | simp_all

/-- C8: with the raise key (E) just pressed, every setting whose
digit-select key (Digit1..Digit4) is held steps by exactly +1 (inside the
clamp range) and Digit5 enables the brick ghost; with the lower key (Q)
just pressed, the held selections step by exactly -1 and Digit5 disables
the brick ghost; settings whose digit key is not held are untouched, and
with neither edge just pressed (held keys alone) nothing changes at
all. -/
theorem c8_settings_steps (input : InputState) (s : GameState) :
    ((input.justPressed KeyCode.KeyQ = false ∧
        input.justPressed KeyCode.KeyE = false) →
      test_settings input s = s) ∧
      ((input.justPressed KeyCode.KeyQ = false ∧
          input.justPressed KeyCode.KeyE = true) →
        (input.pressed KeyCode.Digit1 = true →
            0 ≤ s.paddleSize.points → s.paddleSize.points < 10 →
            (test_settings input s).paddleSize.points =
              s.paddleSize.points + 1) ∧
          (input.pressed KeyCode.Digit1 = false →
            (test_settings input s).paddleSize = s.paddleSize) ∧
          (input.pressed KeyCode.Digit2 = true →
            0 ≤ s.paddleSpeed.points → s.paddleSpeed.points < 10 →
            (test_settings input s).paddleSpeed.points =
              s.paddleSpeed.points + 1) ∧
          (input.pressed KeyCode.Digit2 = false →
            (test_settings input s).paddleSpeed = s.paddleSpeed) ∧
          (input.pressed KeyCode.Digit3 = true →
            0 ≤ s.ballSize.points → s.ballSize.points < 10 →
            (test_settings input s).ballSize.points =
              s.ballSize.points + 1) ∧
          (input.pressed KeyCode.Digit3 = false →
            (test_settings input s).ballSize = s.ballSize) ∧
          (input.pressed KeyCode.Digit4 = true →
            0 ≤ s.ballSpeed.points → s.ballSpeed.points < 10 →
            (test_settings input s).ballSpeed.points =
              s.ballSpeed.points + 1) ∧
          (input.pressed KeyCode.Digit4 = false →
            (test_settings input s).ballSpeed = s.ballSpeed) ∧
          (input.pressed KeyCode.Digit5 = true →
            (test_settings input s).brickGhost.enabled = true) ∧
          (input.pressed KeyCode.Digit5 = false →
            (test_settings input s).brickGhost = s.brickGhost)) ∧
      (input.justPressed KeyCode.KeyQ = true →
        (input.pressed KeyCode.Digit1 = true →
            0 < s.paddleSize.points → s.paddleSize.points ≤ 10 →
            (test_settings input s).paddleSize.points =
              s.paddleSize.points - 1) ∧
          (input.pressed KeyCode.Digit1 = false →
            (test_settings input s).paddleSize = s.paddleSize) ∧
          (input.pressed KeyCode.Digit2 = true →
            0 < s.paddleSpeed.points → s.paddleSpeed.points ≤ 10 →
            (test_settings input s).paddleSpeed.points =
              s.paddleSpeed.points - 1) ∧
          (input.pressed KeyCode.Digit2 = false →
            (test_settings input s).paddleSpeed = s.paddleSpeed) ∧
          (input.pressed KeyCode.Digit3 = true →
            0 < s.ballSize.points → s.ballSize.points ≤ 10 →
            (test_settings input s).ballSize.points =
              s.ballSize.points - 1) ∧
          (input.pressed KeyCode.Digit3 = false →
            (test_settings input s).ballSize = s.ballSize) ∧
          (input.pressed KeyCode.Digit4 = true →
            0 < s.ballSpeed.points → s.ballSpeed.points ≤ 10 →
            (test_settings input s).ballSpeed.points =
              s.ballSpeed.points - 1) ∧
          (input.pressed KeyCode.Digit4 = false →
            (test_settings input s).ballSpeed = s.ballSpeed) ∧
          (input.pressed KeyCode.Digit5 = true →
            (test_settings input s).brickGhost.enabled = false) ∧
          (input.pressed KeyCode.Digit5 = false →
            (test_settings input s).brickGhost = s.brickGhost)) := by
  refine ⟨?_, ?_, ?_⟩
  · rintro ⟨hq, he⟩
    simp [test_settings, hq, he]
  · rintro ⟨hq, he⟩
    rw [test_settings_raise input s hq he]
    refine ⟨?_, ?_, ?_, ?_, ?_, ?_, ?_, ?_, ?_, ?_⟩
    · intro hd h0 h10
      simp [hd, StepSetting.change_points]
      omega
    · intro hd
      simp [hd]
    · intro hd h0 h10
      simp [hd, StepSetting.change_points]
      omega
    · intro hd
      simp [hd]
    · intro hd h0 h10
      simp [hd, StepSetting.change_points]
      omega
    · intro hd
      simp [hd]
    · intro hd h0 h10
      simp [hd, StepSetting.change_points]
      omega
    · intro hd
      simp [hd]
    · intro hd
      simp [hd, BrickGhost.set_enabled]
    · intro hd
      simp [hd]
  · intro hq
    rw [test_settings_lower input s hq]
    refine ⟨?_, ?_, ?_, ?_, ?_, ?_, ?_, ?_, ?_, ?_⟩
    · intro hd h0 h10
      simp [hd, StepSetting.change_points]
      omega
    · intro hd
      simp [hd]
    · intro hd h0 h10
      simp [hd, StepSetting.change_points]
      omega
    · intro hd
      simp [hd]
    · intro hd h0 h10
      simp [hd, StepSetting.change_points]
      omega
    · intro hd
      simp [hd]
    · intro hd h0 h10
      simp [hd, StepSetting.change_points]
      omega
    · intro hd
      simp [hd]
    · intro hd
      simp [hd, BrickGhost.set_enabled]
    · intro hd
      simp [hd]

theorem c8_settings_steps_witness :
    (test_settings
          { justPressedKeys := [KeyCode.KeyE]
            pressedKeys := [KeyCode.KeyE, KeyCode.Digit1, KeyCode.Digit5]
            justPressedMouse := [] }
          { baseState with
            paddleSize := { points := 3 } }).paddleSize.points = 3 + 1 ∧
      (test_settings
          { justPressedKeys := [KeyCode.KeyE]
            pressedKeys := [KeyCode.KeyE, KeyCode.Digit1, KeyCode.Digit5]
            justPressedMouse := [] }
          { baseState with
            paddleSize := { points := 3 } }).brickGhost.enabled = true ∧
      (test_settings
          { justPressedKeys := [KeyCode.KeyE]
            pressedKeys := [KeyCode.KeyE, KeyCode.Digit1, KeyCode.Digit5]
            justPressedMouse := [] }
          { baseState with
            paddleSize := { points := 3 } }).ballSize =
        ({ baseState with
            paddleSize := { points := 3 } } : GameState).ballSize := by
  have h := c8_settings_steps
    { justPressedKeys := [KeyCode.KeyE]
      pressedKeys := [KeyCode.KeyE, KeyCode.Digit1, KeyCode.Digit5]
      justPressedMouse := [] }
    { baseState with paddleSize := { points := 3 } }
  have hr := h.2.1 ⟨by decide, by decide⟩
  exact ⟨hr.1 (by decide) (by decide) (by decide),
    hr.2.2.2.2.2.2.2.2.1 (by decide),
    hr.2.2.2.2.2.1 (by decide)⟩
